import Mathlib

/-!
Shallow embedding of the adaptive-expressions evaluation utilities
(`function_utils.py` and the built-in evaluators under `builtin_functions/`)
from the botbuilder-python repository, together with proofs about the
spec-level properties of that code.

Python values are modelled by the inductive type `PyVal`; Python `None` is
`PyVal.none`.  Numbers are modelled by rationals (`Int` for `int`, `Rat`
for `float`); Python `bool` is a subclass of `int`, so `isinstance(x,
numbers.Number)` is true for booleans, which the model `pyNum?` reflects.
A Python exception escaping a function is modelled by `Except.error` with
the (approximate) exception message; a normal return is `Except.ok`.
-/

/-- A Python value: None, bool, int, float, str, list, dict (string keys),
or tuple.  Floats are modelled by rationals. -/
inductive PyVal where
  | none : PyVal
  | bool : Bool → PyVal
  | int : Int → PyVal
  | float : Rat → PyVal
  | str : String → PyVal
  | list : List PyVal → PyVal
  | dict : List (String × PyVal) → PyVal
  | tuple : List PyVal → PyVal
deriving Repr

/-- Numeric view: Python `isinstance(x, numbers.Number)` is true exactly for
`bool`, `int` and `float` in the modelled value space (bool is a subclass of
int), and the numeric value used by arithmetic/comparison is returned. -/
def pyNum? : PyVal → Option Rat
  | .bool b => some (if b then 1 else 0)
  | .int n => some (n : Rat)
  | .float q => some q
  | _ => Option.none

/-- Is the value Python `None`? -/
def isNone : PyVal → Bool
  | .none => true
  | _ => false

mutual
/-- Python `==` (`operator.eq`) on the modelled value space: numbers compare
by numeric value (so `True == 1` and `1 == 1.0`), `None == None`, strings
compare as strings, lists/tuples compare pointwise within their own kind,
dicts compare as key-value maps, and values of unrelated kinds are unequal. -/
def pyEq : PyVal → PyVal → Bool
  | .list as, .list bs => pyEqList as bs
  | .tuple as, .tuple bs => pyEqList as bs
  | .dict as, .dict bs => as.length == bs.length && pyEqEntries as bs
  | a, b =>
    match pyNum? a, pyNum? b with
    | some x, some y => x == y
    | _, _ =>
      match a, b with
      | .none, .none => true
      | .str s, .str t => s == t
      | _, _ => false
termination_by a b => sizeOf a + sizeOf b

/-- Pointwise Python equality of two lists of values. -/
def pyEqList : List PyVal → List PyVal → Bool
  | [], [] => true
  | a :: as, b :: bs => pyEq a b && pyEqList as bs
  | _, _ => false
termination_by as bs => sizeOf as + sizeOf bs

/-- Every entry of the first association list occurs (Python-equal) in the
second. -/
def pyEqEntries : List (String × PyVal) → List (String × PyVal) → Bool
  | [], _ => true
  | (k, v) :: rest, bs => pyEqFind k v bs && pyEqEntries rest bs
termination_by as bs => sizeOf as + sizeOf bs

/-- Look up key `k` in an association list and compare the value with `v`. -/
def pyEqFind : String → PyVal → List (String × PyVal) → Bool
  | _, _, [] => false
  | k, v, (k2, v2) :: rest => if k == k2 then pyEq v v2 else pyEqFind k v rest
termination_by k v bs => sizeOf v + sizeOf bs
end

mutual
/-- Python `repr` of a value, approximately: containers render recursively,
strings with single quotes; used only where the source calls `str()` on a
container (error messages). -/
def pyRepr : PyVal → String
  | .none => "None"
  | .bool b => if b then "True" else "False"
  | .int n => toString n
  | .float q => toString q
  | .str s => "\x27" ++ s ++ "\x27"
  | .list xs => "[" ++ pyReprList xs ++ "]"
  | .tuple xs => "(" ++ pyReprList xs ++ ")"
  | .dict kvs => "\x7b" ++ pyReprEntries kvs ++ "\x7d"
termination_by v => sizeOf v

/-- Comma-separated reprs of the elements of a list. -/
def pyReprList : List PyVal → String
  | [] => ""
  | [a] => pyRepr a
  | a :: rest => pyRepr a ++ ", " ++ pyReprList rest
termination_by xs => sizeOf xs

/-- Comma-separated reprs of the entries of a dict. -/
def pyReprEntries : List (String × PyVal) → String
  | [] => ""
  | [(k, v)] => "\x27" ++ k ++ "\x27: " ++ pyRepr v
  | (k, v) :: rest => "\x27" ++ k ++ "\x27: " ++ pyRepr v ++ ", " ++ pyReprEntries rest
termination_by kvs => sizeOf kvs
end

/-- Python `str()` of a value: identical to `repr` except on strings. -/
def pyStr : PyVal → String
  | .str s => s
  | v => pyRepr v

/-- Python truthiness of an error variable holding `None` or a string:
`if error:` is taken for a non-empty string only. -/
def pyTruthyStr : Option String → Bool
  | Option.none => false
  | some s => s != ""

namespace FunctionUtils

/-- A child expression as seen by `evaluate_children`: its
`try_evaluate(state, options)` behaviour and its `to_string()` text.
The state type is a parameter; options are folded into the state. -/
structure Child (σ : Type) where
  tryEval : σ → PyVal × Option String
  to_string : String

/-- The type of dynamic verifiers as passed to `evaluate_children`:
`verify(value, child, pos)` returning an error string or `None`. -/
def Verify (σ : Type) := PyVal → Child σ → Nat → Option String

/-- `FunctionUtils.verify_string`: error unless the value is a `str`. -/
def verify_string (value : PyVal) (expression : String) (num : Nat) : Option String :=
  match value with
  | .str _ => Option.none
  | _ => some (expression ++ " is not a string.")

/-- `FunctionUtils.verify_number`: error unless
`isinstance(value, numbers.Number)`; booleans are instances of
`numbers.Number` in Python and therefore pass. -/
def verify_number (value : PyVal) (expression : String) (pos : Nat) : Option String :=
  if (pyNum? value).isSome then Option.none
  else some (expression ++ " is not a number.")

/-- `FunctionUtils.verify_numeric_list`: error string if the value is not a
list; otherwise the loop over elements breaks at the first element that is
not a `numbers.Number`, and there the source computes
`elt + " is not a number in " + expression` with `expression` the raw
expression object, which raises a `TypeError` (modelled as `Except.error`)
for every possible element type. -/
def verify_numeric_list (value : PyVal) (expression : String) (num : Nat) :
    Except String (Option String) :=
  match value with
  | .list xs =>
    match xs.find? (fun elt => !(pyNum? elt).isSome) with
    | Option.none => .ok Option.none
    | some _ => .error "TypeError: unsupported operand type(s) for +"
  | _ => .ok (some (expression ++ " is not a list."))

/-- `FunctionUtils.verify_number_or_string_or_null`: unlike `verify_number`,
this verifier rejects booleans explicitly
(`isinstance(value, bool) or not isinstance(value, numbers.Number)`). -/
def verify_number_or_string_or_null (value : PyVal) (expression : String) (num : Nat) :
    Option String :=
  match value with
  | .none => Option.none
  | .str _ => Option.none
  | .bool _ => some (expression ++ " is neither a number nor string.")
  | v =>
    if (pyNum? v).isSome then Option.none
    else some (expression ++ " is neither a number nor string.")

/-- The loop of `FunctionUtils.evaluate_children`, threading the `error`
variable exactly as the source does: a truthy error (non-empty string)
breaks the loop; a falsy one (`None` or `""`) lets the iteration continue
and may survive to the returned pair. -/
def evaluate_children_loop (state : σ) (verify : Option (Verify σ)) :
    List (Child σ) → Nat → Option String → List PyVal × Option String
  | [], _, error => ([], error)
  | child :: rest, pos, _ =>
    let res := child.tryEval state
    if pyTruthyStr res.2 then ([], res.2)
    else
      let error := match verify with
        | Option.none => res.2
        | some f => f res.1 child pos
      if pyTruthyStr error then ([], error)
      else
        let tail := evaluate_children_loop state verify rest (pos + 1) error
        (res.1 :: tail.1, tail.2)

/-- `FunctionUtils.evaluate_children`: evaluate children left to right,
verify each produced value, stop at the first truthy error and return the
arguments collected so far together with the error. -/
def evaluate_children (children : List (Child σ)) (state : σ)
    (verify : Option (Verify σ)) : List PyVal × Option String :=
  evaluate_children_loop state verify children 0 Option.none

/-- `FunctionUtils.apply`: the evaluator closing over a pure function.
`value` starts as `None`; if the children evaluate without error the
function runs, any exception being caught into `error` with `value` left
at `None`. -/
def apply (function : List PyVal → Except String PyVal)
    (verify : Option (Verify σ)) (children : List (Child σ)) (state : σ) :
    PyVal × Option String :=
  let r := evaluate_children children state verify
  if r.2 = Option.none then
    match function r.1 with
    | .ok v => (v, Option.none)
    | .error msg => (PyVal.none, some msg)
  else (PyVal.none, r.2)

/-- `FunctionUtils.apply_with_error`: like `apply` but the wrapped function
itself returns a `(value, error)` pair, which is passed through as the
result when no exception occurs. -/
def apply_with_error (function : List PyVal → Except String (PyVal × Option String))
    (verify : Option (Verify σ)) (children : List (Child σ)) (state : σ) :
    PyVal × Option String :=
  let r := evaluate_children children state verify
  if r.2 = Option.none then
    match function r.1 with
    | .ok ve => ve
    | .error msg => (PyVal.none, some msg)
  else (PyVal.none, r.2)

/-- The fold inside `FunctionUtils.apply_sequence_with_error`: run the
binary function on `[so_far, arg]`; a truthy error returns the pair early
(value included as returned by the function); otherwise the value becomes
the new accumulator. -/
def sequence_fold (function : List PyVal → Except String (PyVal × Option String))
    (so_far : PyVal) : List PyVal → Except String (PyVal × Option String)
  | [] => .ok (so_far, Option.none)
  | arg :: rest =>
    match function [so_far, arg] with
    | .error msg => .error msg
    | .ok ve =>
      if pyTruthyStr ve.2 then .ok ve
      else sequence_fold function ve.1 rest

/-- The anonymous function built by `apply_sequence_with_error`:
`args[0]` raises `IndexError` on an empty argument list; otherwise the
binary function is folded left over the arguments. -/
def apply_sequence_with_error_fn
    (function : List PyVal → Except String (PyVal × Option String)) :
    List PyVal → Except String (PyVal × Option String)
  | [] => .error "IndexError: list index out of range"
  | a :: rest => sequence_fold function a rest

/-- `FunctionUtils.apply_sequence_with_error`. -/
def apply_sequence_with_error
    (function : List PyVal → Except String (PyVal × Option String))
    (verify : Option (Verify σ)) (children : List (Child σ)) (state : σ) :
    PyVal × Option String :=
  apply_with_error (apply_sequence_with_error_fn function) verify children state

/-- The fold inside `FunctionUtils.apply_sequence`: exceptions from the
binary function propagate (to be caught by `apply`). -/
def sequence_fold_pure (function : List PyVal → Except String PyVal)
    (so_far : PyVal) : List PyVal → Except String PyVal
  | [] => .ok so_far
  | arg :: rest =>
    match function [so_far, arg] with
    | .error msg => .error msg
    | .ok v => sequence_fold_pure function v rest

/-- The anonymous function built by `apply_sequence`: left fold of the
binary function over the argument list, starting from `args[0]`. -/
def apply_sequence_fn (function : List PyVal → Except String PyVal) :
    List PyVal → Except String PyVal
  | [] => .error "IndexError: list index out of range"
  | a :: rest => sequence_fold_pure function a rest

/-- `FunctionUtils.apply_sequence`. -/
def apply_sequence (function : List PyVal → Except String PyVal)
    (verify : Option (Verify σ)) (children : List (Child σ)) (state : σ) :
    PyVal × Option String :=
  apply (apply_sequence_fn function) verify children state

/-- `FunctionUtils.is_integer`: a non-`None` value that is an `int`
(booleans included, being a subclass of `int`) or a whole-valued `float`. -/
def is_integer : PyVal → Bool
  | .int _ => true
  | .bool _ => true
  | .float q => q.den == 1
  | _ => false

/-- `FunctionUtils.is_logic_true`: booleans are themselves, `None` is
false, everything else is true. -/
def is_logic_true : PyVal → Bool
  | .bool b => b
  | .none => false
  | _ => true

/-- Python `int(value)` for values passing `is_integer` (truncation toward
zero for floats). -/
def py_int_of : PyVal → Int
  | .int n => n
  | .bool b => if b then 1 else 0
  | .float q => if q < 0 then -((-q).floor) else q.floor
  | _ => 0

/-- The body of `FunctionUtils.is_equal` applied to `args[0], args[1]`:
both `None` means equal and a single `None` unequal; two empty lists or two
empty dicts are equal; two numbers within `1e-8` are equal, otherwise the
comparison falls through to Python `==`. -/
def is_equal_pair (a b : PyVal) : Bool :=
  if isNone a || isNone b then isNone a && isNone b
  else if (match a, b with | .list [], .list [] => true | _, _ => false) then true
  else if (match a, b with | .dict [], .dict [] => true | _, _ => false) then true
  else
    match pyNum? a, pyNum? b with
    | some x, some y =>
      if |x - y| < (1 : Rat) / 100000000 then true else pyEq a b
    | _, _ => pyEq a b

/-- `FunctionUtils.is_equal`: empty argument list returns `False`;
otherwise `args[0]` and `args[1]` are compared, a one-element list raising
`IndexError`. -/
def is_equal (args : List PyVal) : Except String Bool :=
  if args.length == 0 then .ok false
  else
    match args with
    | a :: b :: _ => .ok (is_equal_pair a b)
    | _ => .error "IndexError: list index out of range"

/-- `FunctionUtils.access_index`: `None` instance yields `(None, None)`;
a list is indexed when `0 <= index < len` and reports an out-of-range error
otherwise; any other instance reaches
`error = instance + " is not a collection."`, string concatenation that
only succeeds when the instance is itself a `str` and raises `TypeError`
for every other type. -/
def access_index (inst : PyVal) (index : Int) : Except String (PyVal × Option String) :=
  match inst with
  | .none => .ok (PyVal.none, Option.none)
  | .list xs =>
    if 0 ≤ index ∧ index < (xs.length : Int) then
      .ok (xs.getD index.toNat PyVal.none, Option.none)
    else
      .ok (PyVal.none,
        some (toString index ++ " is out of range for " ++ pyStr (.list xs)))
  | .str s => .ok (PyVal.none, some (s ++ " is not a collection."))
  | _ => .error "TypeError: unsupported operand type(s) for +"

/-- One memory frame (a `SimpleObjectMemory` over a small dict). -/
abbrev Frame := List (String × PyVal)

/-- A `StackedMemory`: the list of frames, `append` pushing at the end and
`pop` removing the last frame. -/
abbrev Stack := List Frame

/-- The per-element loop of `FunctionUtils.foreach`: push a one-binding
frame, evaluate the body child under the extended stack, pop, and either
return the first non-`None` per-element error or accumulate the value. -/
def foreach_loop (body : Stack → PyVal × Option String) (iter_name : String) :
    Stack → List PyVal → List PyVal → Option String × List PyVal × Stack
  | st, [], acc => (Option.none, acc, st)
  | st, item :: rest, acc =>
    let st1 : Stack := List.append st [[(iter_name, item)]]
    let res := body st1
    let st2 : Stack := List.dropLast st1
    match res.2 with
    | some e => (some e, acc, st2)
    | Option.none => foreach_loop body iter_name st2 rest (List.append acc [res.1])

/-- The iterable-to-array step of `foreach`: lists (and sets) iterate as
themselves, dicts iterate as `{"key": k, "value": v}` records; anything
else is not iterable here. -/
def iter_to_array : PyVal → Option (List PyVal)
  | .list xs => some xs
  | .dict kvs =>
    some (kvs.map (fun kv => PyVal.dict [("key", .str kv.1), ("value", kv.2)]))
  | _ => Option.none

/-- `FunctionUtils.foreach`.  Child 0 evaluates under the caller state; a
`None` instance overwrites the error; a non-collection instance sets an
error.  On every path where `error` is non-`None` before the loop the
source then executes `value = result` with `result` never assigned, which
raises `UnboundLocalError` (modelled as `Except.error`).  Inside the loop
the frame is pushed, the body child evaluated, the frame popped, and a
non-`None` per-element error returns `(None, error)` immediately. -/
def foreach (child0 : Stack → PyVal × Option String) (child0_str : String)
    (iter_value : PyVal) (body : Stack → PyVal × Option String) (state : Stack) :
    Except String (PyVal × Option String × Stack) :=
  let res := child0 state
  let inst := res.1
  let error0 := if isNone inst then
      some (child0_str ++ " evaluated to null.")
    else res.2
  if error0 = Option.none then
    let iterator_name := pyStr iter_value
    match iter_to_array inst with
    | some arr =>
      match foreach_loop body iterator_name state arr [] with
      | (some e, _, st) => .ok (PyVal.none, some e, st)
      | (Option.none, results, st) => .ok (.list results, Option.none, st)
    | Option.none =>
      .error "UnboundLocalError: local variable \x27result\x27 referenced before assignment"
  else
    .error "UnboundLocalError: local variable \x27result\x27 referenced before assignment"

/-- The AST node as used by `try_accumulate_path`: its `expr_type` tag, its
children, the constant reachable by `get_value()`, the result of
`try_evaluate(state, options)` under the ambient state, and `to_string()`. -/
inductive Expr where
  | mk (expr_type : String) (children : List Expr) (value : PyVal)
      (eval : PyVal × Option String) (to_string : String)

/-- The `expr_type` tag of a node. -/
def Expr.exprType : Expr → String
  | .mk t _ _ _ _ => t

/-- The children of a node. -/
def Expr.childList : Expr → List Expr
  | .mk _ cs _ _ _ => cs

/-- The constant value of a node (`get_value()`). -/
def Expr.get_value : Expr → PyVal
  | .mk _ _ v _ _ => v

/-- The `try_evaluate` result of a node under the ambient state. -/
def Expr.evalResult : Expr → PyVal × Option String
  | .mk _ _ _ e _ => e

/-- The `to_string()` text of a node. -/
def Expr.text : Expr → String
  | .mk _ _ _ _ s => s

/-- Modelled from the spec: the `ACCESSOR` expression-type tag from
`expression_type.py`, a module not under `src/`. -/
def ACCESSOR : String := "accessor"

/-- Modelled from the spec: the `ELEMENT` expression-type tag from
`expression_type.py`, a module not under `src/`. -/
def ELEMENT : String := "element"

/-- Strip all trailing dots, Python `path.rstrip(".")`. -/
def rstrip_dots (s : String) : String :=
  String.mk ((s.data.reverse.dropWhile (fun c => c == Char.ofNat 46)).reverse)

/-- Python `path.replace(".[", "[")` over the character list: left-to-right,
non-overlapping. -/
def replace_dot_bracket : List Char → List Char
  | [] => []
  | [c] => [c]
  | c :: c2 :: rest =>
    if c == Char.ofNat 46 && c2 == Char.ofNat 91 then
      Char.ofNat 91 :: replace_dot_bracket rest
    else c :: replace_dot_bracket (c2 :: rest)

/-- The post-loop step of `try_accumulate_path`:
`path.rstrip(".").replace(".[", "[")`, with an empty path becoming `None`. -/
def finish_path (path : String) : Option String :=
  let p := String.mk (replace_dot_bracket (rstrip_dots path).data)
  if p == "" then Option.none else some p

/-- The classification of an element subscript value performed by the
source at lines 597-609: an integer-valued number extends the path as
`[n]`, a string as `[\x27s\x27]`, and anything else reaches the branch that sets
`left = None` before reading `left.children[1]`. -/
inductive SubKind where
  | intlike : Int → SubKind
  | strlike : String → SubKind
  | bad : SubKind

/-- The subscript test of `try_accumulate_path`:
`isinstance(value, numbers.Number) and FunctionUtils.is_integer(value)`,
then `isinstance(value, str)`, else the failing branch. -/
def classify_subscript (v : PyVal) : SubKind :=
  if (pyNum? v).isSome && FunctionUtils.is_integer v then .intlike (FunctionUtils.py_int_of v)
  else
    match v with
    | .str s => .strlike s
    | _ => .bad

mutual
/-- The while loop of `FunctionUtils.try_accumulate_path` over the current
`left` node and accumulated `path`: done when `left` is `None`, one step
otherwise. -/
def accumulate_loop : Option Expr → String →
    Except String (Option String × Option Expr × Option String)
  | Option.none, path => .ok (finish_path path, Option.none, Option.none)
  | some e, path => accumulate_node e path
termination_by left _ => sizeOf left

/-- One iteration of the walk at a present `left` node: dispatch on the
node type. -/
def accumulate_node : Expr → String →
    Except String (Option String × Option Expr × Option String)
  | .mk ty cs v ev ts, path =>
    if ty == ACCESSOR then accumulate_accessor cs path
    else if ty == ELEMENT then accumulate_element cs path
    else .ok (finish_path path, some (.mk ty cs v ev ts), Option.none)
termination_by e _ => sizeOf e

/-- The accessor case: prepend the constant name of `children[0]`, then
continue with `children[1]` when there are exactly two children and with
`None` otherwise. -/
def accumulate_accessor : List Expr → String →
    Except String (Option String × Option Expr × Option String)
  | [], _ => .error "IndexError: list index out of range"
  | [c0], path => accumulate_loop Option.none (pyStr c0.get_value ++ "." ++ path)
  | [c0, c1], path => accumulate_loop (some c1) (pyStr c0.get_value ++ "." ++ path)
  | c0 :: _ :: _ :: _, path =>
    accumulate_loop Option.none (pyStr c0.get_value ++ "." ++ path)
termination_by cs _ => sizeOf cs

/-- The element case: evaluate the subscript child; a non-`None` error is
returned as `(None, None, error)`; an integer or string subscript extends
the path and continues with `children[0]`; any other value raises
`AttributeError`. -/
def accumulate_element : List Expr → String →
    Except String (Option String × Option Expr × Option String)
  | c0 :: c1 :: _, path =>
    (match c1.evalResult.2 with
    | some e => .ok (Option.none, Option.none, some e)
    | Option.none =>
      match classify_subscript c1.evalResult.1 with
      | .intlike n => accumulate_loop (some c0) ("[" ++ toString n ++ "]." ++ path)
      | .strlike s => accumulate_loop (some c0) ("[\x27" ++ s ++ "\x27]." ++ path)
      | .bad =>
        .error "AttributeError: \x27NoneType\x27 object has no attribute \x27children\x27")
  | _, _ => .error "IndexError: list index out of range"
termination_by cs _ => sizeOf cs
end

/-- `FunctionUtils.try_accumulate_path`, modelled with each node carrying
its `try_evaluate` result under the ambient state. -/
def try_accumulate_path (expression : Expr) :
    Except String (Option String × Option Expr × Option String) :=
  accumulate_loop (some expression) ""

/-- Modelled from the spec: the `ReturnType.Object` bit flag (value 4) from
`return_type.py`, a module not under `src/`.  The lattice is
`Boolean = 1, Number = 2, Object = 4, String = 8, Array = 16`. -/
def ReturnTypeObject : Nat := 4

/-- `FunctionUtils.build_type_validator_error`: the source compares the
numeric `return_type` against the one-element tuples `(1,)`, `(2,)`,
`(4,)`, `(8,)` with Python `==`, a comparison between a number and a tuple
that is always false, so `names` is always `"Array"`. -/
def build_type_validator_error (return_type : Nat) (child_expr : String)
    (expr : String) : String :=
  let names :=
    if pyEq (.int return_type) (.tuple [.int 1]) then "Boolean"
    else if pyEq (.int return_type) (.tuple [.int 2]) then "Number"
    else if pyEq (.int return_type) (.tuple [.int 4]) then "Object"
    else if pyEq (.int return_type) (.tuple [.int 8]) then "String"
    else "Array"
  if !(names.data.contains (Char.ofNat 44)) then
    "\x7b" ++ child_expr ++ "\x7d is not a \x7b" ++ names ++
      "\x7d expression in \x7b" ++ expr ++ "\x7d."
  else
    "\x7b" ++ child_expr ++ "\x7d in \x7b" ++ expr ++ "\x7d is not any of [\x7b" ++
      names ++ "\x7d]."

/-- A child as seen by the static validators: its declared return type and
its `to_string()` text. -/
structure ChildDecl where
  return_type : Nat
  to_string : String

/-- `FunctionUtils.validate_arity_and_any_type`: a raised exception is
modelled as `some message`.  Arity is checked first; then, when the
declared type excludes `Object`, the first child whose declared type also
excludes `Object` and is disjoint from the declared type raises the
type-validator error. -/
def validate_arity_and_any_type (expr_str : String) (children : List ChildDecl)
    (min_arity max_arity : Nat) (return_type : Nat) : Option String :=
  if children.length < min_arity then
    some (expr_str ++ " should have at least " ++ toString min_arity ++ " children.")
  else if children.length > max_arity then
    some (expr_str ++ " can\x27t have more than " ++ toString max_arity ++ " children.")
  else if return_type &&& ReturnTypeObject == 0 then
    match children.find? (fun child =>
        child.return_type &&& ReturnTypeObject == 0 &&
        return_type &&& child.return_type == 0) with
    | some child => some (build_type_validator_error return_type child.to_string expr_str)
    | Option.none => Option.none
  else Option.none

end FunctionUtils

/-- UTF-8 encoding of one character. -/
def utf8_encode_char (c : Char) : List UInt8 :=
  let v := c.toNat
  if v < 128 then [UInt8.ofNat v]
  else if v < 2048 then
    [UInt8.ofNat (192 + v / 64), UInt8.ofNat (128 + v % 64)]
  else if v < 65536 then
    [UInt8.ofNat (224 + v / 4096), UInt8.ofNat (128 + (v / 64) % 64),
      UInt8.ofNat (128 + v % 64)]
  else
    [UInt8.ofNat (240 + v / 262144), UInt8.ofNat (128 + (v / 4096) % 64),
      UInt8.ofNat (128 + (v / 64) % 64), UInt8.ofNat (128 + v % 64)]

/-- UTF-8 encoding of a string, Python `s.encode(encoding="utf-8")`. -/
def utf8_bytes (s : String) : List UInt8 :=
  (s.data.map utf8_encode_char).flatten

/-- The standard base64 alphabet. -/
def b64_table : List Char :=
  "ABCDEFGHIJKLMNOPQRSTUVWXYZabcdefghijklmnopqrstuvwxyz0123456789+/".data

/-- The base64 digit for a 6-bit value. -/
def b64_char (n : Nat) : Char := b64_table.getD n (Char.ofNat 65)

/-- Standard base64 encoding with `=` padding, Python
`base64.b64encode(...).decode()`. -/
def b64_encode : List UInt8 → String
  | [] => ""
  | [a] =>
    let n := a.toNat
    String.mk [b64_char (n >>> 2), b64_char ((n &&& 3) <<< 4)] ++ "=="
  | [a, b] =>
    let n := a.toNat * 256 + b.toNat
    String.mk [b64_char (n >>> 10), b64_char ((n >>> 4) &&& 63),
      b64_char ((n &&& 15) <<< 2)] ++ "="
  | a :: b :: c :: rest =>
    let n := a.toNat * 65536 + b.toNat * 256 + c.toNat
    String.mk [b64_char (n >>> 18), b64_char ((n >>> 12) &&& 63),
      b64_char ((n >>> 6) &&& 63), b64_char (n &&& 63)] ++ b64_encode rest

/-- The anonymous function inside `DataUri.evaluator`
(`builtin_functions/data_uri.py`): UTF-8 encode `str(args[0])`, base64 it,
and prepend the literal data-URI prefix. -/
def data_uri_fn (args : List PyVal) : Except String PyVal :=
  match args with
  | a :: _ =>
    .ok (.str ("data:text/plain;charset=utf-8;base64," ++
      b64_encode (utf8_bytes (pyStr a))))
  | [] => .error "IndexError: list index out of range"

/-- `DataUri.evaluator`: the anonymous function wrapped by
`FunctionUtils.apply` with `verify_string`. -/
def data_uri_evaluator (children : List (FunctionUtils.Child σ)) (state : σ) :
    PyVal × Option String :=
  FunctionUtils.apply data_uri_fn
    (some (fun v child pos => FunctionUtils.verify_string v child.to_string pos))
    children state

/-- The first non-`None` error in a list of per-element `(value, error)`
results; reference function for stating the foreach abort property. -/
def first_error : List (PyVal × Option String) → Option String
  | [] => Option.none
  | r :: rest =>
    match r.2 with
    | some e => some e
    | Option.none => first_error rest

/-- The values produced before the first per-element error (all of them when
no error occurs); reference function for stating the foreach result. -/
def values_before_error : List (PyVal × Option String) → List PyVal
  | [] => []
  | r :: rest =>
    match r.2 with
    | some _ => []
    | Option.none => r.1 :: values_before_error rest

/-- Modelled from the spec: the binary numeric case of the builtin `add`
evaluator, whose module is not under `src/`; used only to instantiate the
variadic-arithmetic consequence of the `apply_sequence` fold. -/
def py_add_num (args : List PyVal) : Except String PyVal :=
  match args with
  | [a, b] =>
    match pyNum? a, pyNum? b with
    | some x, some y => .ok (.float (x + y))
    | _, _ => .error "TypeError: unsupported operand"
  | _ => .error "TypeError: add expects two arguments"

/-! ## Helper lemmas -/

/-- Python equality between a number and a one-element tuple is false. -/
theorem pyEq_int_tuple (n : Int) (l : List PyVal) :
    pyEq (.int n) (.tuple l) = false := by
  simp [pyEq, pyNum?]

/-- A value with a numeric view is not `None`. -/
theorem isNone_eq_false_of_num {v : PyVal} {x : Rat} (h : pyNum? v = some x) :
    isNone v = false := by
  cases v <;> simp_all [pyNum?, isNone]

/-- The source comparison `names` in `build_type_validator_error` always
falls through to `"Array"`, so the message always claims an Array
expectation. -/
theorem build_type_validator_error_eq (rt : Nat) (c e : String) :
    FunctionUtils.build_type_validator_error rt c e =
      "\x7b" ++ c ++ "\x7d is not a \x7b" ++ "Array" ++ "\x7d expression in \x7b" ++
        e ++ "\x7d." := by
  unfold FunctionUtils.build_type_validator_error
  simp only [pyEq_int_tuple, Bool.false_eq_true, if_false]
  rfl

/-! ## C4, C5, C6, C9, C10 -/

/-- C4: `isLogicTrue(v)` is false exactly when `v` is the boolean false or
`v` is null; every other value, including `0`, the empty string, and empty
collections, is logically true. -/
theorem claim4_is_logic_true :
    (∀ v : PyVal, FunctionUtils.is_logic_true v = false ↔
      (v = PyVal.bool false ∨ v = PyVal.none)) ∧
    FunctionUtils.is_logic_true (PyVal.int 0) = true ∧
    FunctionUtils.is_logic_true (PyVal.str "") = true ∧
    FunctionUtils.is_logic_true (PyVal.list []) = true ∧
    FunctionUtils.is_logic_true (PyVal.dict []) = true := by
  refine ⟨fun v => ?_, rfl, rfl, rfl, rfl⟩
  cases v <;> simp [FunctionUtils.is_logic_true]

/-- C5 counterexample: contrary to the claim, the dynamic number verifiers
accept booleans: `verify_number(True)` returns `None` (no error), and the
per-element check of `verify_numeric_list` passes a list of booleans, since
Python `bool` is a subclass of `int` and hence an instance of
`numbers.Number`. -/
theorem claim5_counterexample :
    FunctionUtils.verify_number (PyVal.bool true) "two" 0 = Option.none ∧
    FunctionUtils.verify_numeric_list (PyVal.list [PyVal.bool true, PyVal.bool false])
      "lst" 0 = .ok Option.none := ⟨rfl, rfl⟩

/-- C5 amended: for every boolean value, `verify_number` and the
per-element check of `verify_numeric_list` report no error (booleans are
accepted as numbers); only `verify_number_or_string_or_null` explicitly
rejects booleans. -/
theorem claim5_booleans_accepted :
    ∀ (b : Bool) (expr : String) (pos : Nat),
      FunctionUtils.verify_number (PyVal.bool b) expr pos = Option.none ∧
      (∀ bs : List Bool,
        FunctionUtils.verify_numeric_list (PyVal.list (bs.map PyVal.bool)) expr pos =
          .ok Option.none) ∧
      FunctionUtils.verify_number_or_string_or_null (PyVal.bool b) expr pos =
        some (expr ++ " is neither a number nor string.") := by
  intro b expr pos
  refine ⟨rfl, fun bs => ?_, rfl⟩
  have hfind : (bs.map PyVal.bool).find? (fun elt => !(pyNum? elt).isSome) =
      Option.none := by
    rw [List.find?_eq_none]
    intro x hx
    rw [List.mem_map] at hx
    obtain ⟨y, _, rfl⟩ := hx
    simp [pyNum?]
  unfold FunctionUtils.verify_numeric_list
  simp only [hfind]

/-- C6: at the failing input `access_index(42, 0)` the source reaches
`error = instance + " is not a collection."` and raises `TypeError`
(an `int` cannot be concatenated with a `str`) instead of returning the
claimed `(None, "42 is not a collection.")` pair; the remaining cases
behave as the claim states, the message concatenation succeeding only for
string instances. -/
theorem claim6_access_index :
    FunctionUtils.access_index (PyVal.int 42) 0 =
      .error "TypeError: unsupported operand type(s) for +" ∧
    FunctionUtils.access_index PyVal.none 5 = .ok (PyVal.none, Option.none) ∧
    FunctionUtils.access_index (PyVal.list [PyVal.int 7, PyVal.int 8]) 1 =
      .ok (PyVal.int 8, Option.none) ∧
    FunctionUtils.access_index (PyVal.list [PyVal.int 7]) 5 =
      .ok (PyVal.none,
        some ("5 is out of range for " ++ pyStr (PyVal.list [PyVal.int 7]))) ∧
    FunctionUtils.access_index (PyVal.str "hi") 0 =
      .ok (PyVal.none, some ("hi" ++ " is not a collection.")) := by
  refine ⟨rfl, rfl, ?_, ?_, rfl⟩
  · simp [FunctionUtils.access_index]
  · simp only [FunctionUtils.access_index]
    norm_num
    congr 1

/-- C9: `dataUri(s)` is the literal prefix
`"data:text/plain;charset=utf-8;base64,"` followed by the base64 encoding
of the UTF-8 bytes of `s`, and in particular `dataUri("hello")` produces
`"data:text/plain;charset=utf-8;base64,aGVsbG8="`, also through the full
`apply`-wrapped evaluator with its string verifier. -/
theorem claim9_data_uri :
    (∀ s : String, data_uri_fn [PyVal.str s] =
      .ok (.str ("data:text/plain;charset=utf-8;base64," ++
        b64_encode (utf8_bytes s)))) ∧
    data_uri_fn [PyVal.str "hello"] =
      .ok (.str "data:text/plain;charset=utf-8;base64,aGVsbG8=") ∧
    data_uri_evaluator (σ := Unit)
      [{ tryEval := fun _ => (PyVal.str "hello", Option.none),
         to_string := "hello-node" }] () =
      (.str "data:text/plain;charset=utf-8;base64,aGVsbG8=", Option.none) := by
  exact ⟨fun s => rfl, rfl, rfl⟩

/-- C10: the static type-mismatch message built by
`build_type_validator_error` names `"Array"` as the expected type whatever
return type was declared, because the declared type is compared with
one-element tuples that no numeric value equals; in particular
`validate_arity_and_any_type` with declared type `Number = 2` and a child
declared `String = 8` raises the Array-naming message. -/
theorem claim10_type_validator_array :
    (∀ (rt : Nat) (c e : String),
      FunctionUtils.build_type_validator_error rt c e =
        "\x7b" ++ c ++ "\x7d is not a \x7b" ++ "Array" ++ "\x7d expression in \x7b" ++
          e ++ "\x7d.") ∧
    FunctionUtils.validate_arity_and_any_type "expr"
      [{ return_type := 8, to_string := "child" }] 1 1 2 =
      some ("\x7bchild\x7d is not a \x7b" ++ "Array" ++
        "\x7d expression in \x7bexpr\x7d.") := by
  refine ⟨build_type_validator_error_eq, ?_⟩
  have h : FunctionUtils.validate_arity_and_any_type "expr"
      [{ return_type := 8, to_string := "child" }] 1 1 2 =
      some (FunctionUtils.build_type_validator_error 2 "child" "expr") := rfl
  rw [h, build_type_validator_error_eq]
  rfl

/-! ## C8 -/

/-- The fold inside `apply_sequence` is the monadic left fold of the binary
function over the remaining arguments. -/
theorem sequence_fold_pure_eq_foldlM (f : List PyVal → Except String PyVal) :
    ∀ (l : List PyVal) (a : PyVal),
      FunctionUtils.sequence_fold_pure f a l =
        List.foldlM (fun acc x => f [acc, x]) a l := by
  intro l
  induction l with
  | nil => intro a; rfl
  | cons b rest ih =>
    intro a
    simp only [FunctionUtils.sequence_fold_pure, List.foldlM_cons]
    cases hf : f [a, b] with
    | error msg => rfl
    | ok v => simpa using ih v

/-- C8: for at least two arguments, `applySequence(fn)` computes the left
fold of the binary function, and with (spec-modelled) numeric addition the
variadic `add(a,b,c,d)` equals `((a+b)+c)+d`. -/
theorem claim8_apply_sequence :
    (∀ (f : List PyVal → Except String PyVal) (a b : PyVal) (rest : List PyVal),
      FunctionUtils.apply_sequence_fn f (a :: b :: rest) =
        List.foldlM (fun acc x => f [acc, x]) a (b :: rest)) ∧
    (∀ a b c d : Rat,
      FunctionUtils.apply_sequence_fn py_add_num
        [PyVal.float a, PyVal.float b, PyVal.float c, PyVal.float d] =
        .ok (PyVal.float (((a + b) + c) + d))) := by
  refine ⟨fun f a b rest => ?_, fun a b c d => rfl⟩
  exact sequence_fold_pure_eq_foldlM f (b :: rest) a

/-! ## C3 -/

/-- Python `==` on two values with numeric views is exact numeric
equality. -/
theorem pyEq_of_num {a b : PyVal} {x y : Rat}
    (ha : pyNum? a = some x) (hb : pyNum? b = some y) :
    pyEq a b = (x == y) := by
  cases a <;> simp only [pyNum?, Option.some.injEq, reduceCtorEq] at ha <;>
    cases b <;> simp only [pyNum?, Option.some.injEq, reduceCtorEq] at hb <;>
    simp [pyEq, pyNum?, ha, hb]

/-- C3: `is_equal` on two nulls is true; on exactly one null it is false;
two empty lists and two empty dicts are equal; and two values with numeric
views are equal exactly when they differ by less than `1e-8`. -/
theorem claim3_is_equal :
    FunctionUtils.is_equal [PyVal.none, PyVal.none] = .ok true ∧
    (∀ v : PyVal, isNone v = false →
      FunctionUtils.is_equal [PyVal.none, v] = .ok false ∧
      FunctionUtils.is_equal [v, PyVal.none] = .ok false) ∧
    FunctionUtils.is_equal [PyVal.list [], PyVal.list []] = .ok true ∧
    FunctionUtils.is_equal [PyVal.dict [], PyVal.dict []] = .ok true ∧
    (∀ (a b : PyVal) (x y : Rat), pyNum? a = some x → pyNum? b = some y →
      (FunctionUtils.is_equal [a, b] = .ok true ↔
        |x - y| < (1 : Rat) / 100000000)) := by
  refine ⟨rfl, fun v hv => ?_, rfl, rfl, fun a b x y ha hb => ?_⟩
  · have h1 : isNone PyVal.none = true := rfl
    constructor
    · show Except.ok (FunctionUtils.is_equal_pair PyVal.none v) = .ok false
      simp [FunctionUtils.is_equal_pair, h1, hv]
    · show Except.ok (FunctionUtils.is_equal_pair v PyVal.none) = .ok false
      simp [FunctionUtils.is_equal_pair, h1, hv]
  · show Except.ok (FunctionUtils.is_equal_pair a b) = .ok true ↔ _
    have hna := isNone_eq_false_of_num ha
    have hnb := isNone_eq_false_of_num hb
    rw [FunctionUtils.is_equal_pair]
    simp only [hna, hnb, ha, hb, Bool.false_and, Bool.or_self,
      Bool.false_eq_true, if_false, Except.ok.injEq]
    · by_cases h : |x - y| < (1 : Rat) / 100000000
      · rw [if_pos h]
        simpa using h
      · rw [if_neg h, pyEq_of_num ha hb, beq_iff_eq]
        constructor
        · intro heq
          subst heq
          simp only [sub_self, abs_zero]
          norm_num
        · intro hlt
          exact absurd hlt h
    · intro h1 h2
      subst h1
      simp [pyNum?] at ha
    · intro h1 h2
      subst h1
      simp [pyNum?] at ha

/-! ## C1 -/

/-- C1 counterexample: an evaluator built with `apply_with_error` over a
function that itself returns a value together with a non-null error passes
both through, so the evaluation returns a non-null value and a non-null
error at the same time, contradicting the claim for arbitrary wrapped
functions. -/
theorem claim1_counterexample :
    FunctionUtils.apply_with_error (σ := Unit)
      (fun _ => .ok (PyVal.int 1, some "boom")) Option.none [] () =
      (PyVal.int 1, some "boom") ∧
    PyVal.int 1 ≠ PyVal.none :=
  ⟨rfl, fun h => PyVal.noConfusion h⟩

/-- The fold of `apply_sequence_with_error` preserves exclusivity: if the
binary function never returns a non-null value together with a truthy
error, neither does the fold (the only early exit carrying an error is the
truthy-error one). -/
theorem sequence_fold_exclusive
    (f : List PyVal → Except String (PyVal × Option String))
    (hf : ∀ args v e, f args = .ok (v, e) → pyTruthyStr e = true → v = PyVal.none) :
    ∀ (l : List PyVal) (a v : PyVal) (e : Option String),
      FunctionUtils.sequence_fold f a l = .ok (v, e) → e ≠ Option.none →
      v = PyVal.none := by
  intro l
  induction l with
  | nil =>
    intro a v e h he
    simp only [FunctionUtils.sequence_fold] at h
    injection h with h1
    injection h1 with h2 h3
    exact absurd h3.symm he
  | cons b rest ih =>
    intro a v e h he
    simp only [FunctionUtils.sequence_fold] at h
    split at h
    · exact Except.noConfusion h
    · rename_i ve heq
      by_cases ht : pyTruthyStr ve.2 = true
      · rw [if_pos ht] at h
        injection h with h1
        have hv := hf [a, b] ve.1 ve.2 (by rw [heq]) ht
        rw [h1] at hv
        exact hv
      · rw [if_neg ht] at h
        exact ih ve.1 v e h he

/-- The anonymous function of `apply_sequence_with_error` is exclusive
whenever the wrapped binary function is. -/
theorem apply_sequence_with_error_fn_exclusive
    (f : List PyVal → Except String (PyVal × Option String))
    (hf : ∀ args v e, f args = .ok (v, e) → pyTruthyStr e = true → v = PyVal.none) :
    ∀ args v e, FunctionUtils.apply_sequence_with_error_fn f args = .ok (v, e) →
      e ≠ Option.none → v = PyVal.none := by
  intro args v e h he
  cases args with
  | nil => exact Except.noConfusion h
  | cons a rest => exact sequence_fold_exclusive f hf rest a v e h he

/-- C1 amended: evaluators built with `apply` never return both a non-null
value and a non-null error (any exception leaves the value at null);
evaluators built with `apply_with_error` or `apply_sequence_with_error`
are exclusive provided the wrapped function never pairs a non-null value
with a truthy error, a condition the wrapped function can otherwise
violate (see the counterexample). -/
theorem claim1_exclusive :
    (∀ (σ : Type) (function : List PyVal → Except String PyVal)
        (verify : Option (FunctionUtils.Verify σ))
        (children : List (FunctionUtils.Child σ)) (state : σ),
      (FunctionUtils.apply function verify children state).2 ≠ Option.none →
      (FunctionUtils.apply function verify children state).1 = PyVal.none) ∧
    (∀ (σ : Type) (function : List PyVal → Except String (PyVal × Option String))
        (verify : Option (FunctionUtils.Verify σ))
        (children : List (FunctionUtils.Child σ)) (state : σ),
      (∀ args v e, function args = .ok (v, e) → e ≠ Option.none → v = PyVal.none) →
      (FunctionUtils.apply_with_error function verify children state).2 ≠ Option.none →
      (FunctionUtils.apply_with_error function verify children state).1 = PyVal.none) ∧
    (∀ (σ : Type) (function : List PyVal → Except String (PyVal × Option String))
        (verify : Option (FunctionUtils.Verify σ))
        (children : List (FunctionUtils.Child σ)) (state : σ),
      (∀ args v e, function args = .ok (v, e) → pyTruthyStr e = true →
        v = PyVal.none) →
      (FunctionUtils.apply_sequence_with_error function verify children
        state).2 ≠ Option.none →
      (FunctionUtils.apply_sequence_with_error function verify children
        state).1 = PyVal.none) := by
  have main : ∀ (σ : Type)
      (function : List PyVal → Except String (PyVal × Option String))
      (verify : Option (FunctionUtils.Verify σ))
      (children : List (FunctionUtils.Child σ)) (state : σ),
      (∀ args v e, function args = .ok (v, e) → e ≠ Option.none →
        v = PyVal.none) →
      (FunctionUtils.apply_with_error function verify children state).2 ≠
        Option.none →
      (FunctionUtils.apply_with_error function verify children state).1 =
        PyVal.none := by
    intro σ f verify children state hexcl h
    simp only [FunctionUtils.apply_with_error] at h ⊢
    by_cases hr : (FunctionUtils.evaluate_children children state verify).2 =
        Option.none
    · rw [if_pos hr] at h ⊢
      cases hfv : f (FunctionUtils.evaluate_children children state verify).1 with
      | ok ve =>
        obtain ⟨v1, e1⟩ := ve
        rw [hfv] at h
        exact hexcl _ v1 e1 hfv h
      | error msg => rfl
    · rw [if_neg hr]
  refine ⟨?_, main, ?_⟩
  · intro σ f verify children state h
    simp only [FunctionUtils.apply] at h ⊢
    by_cases hr : (FunctionUtils.evaluate_children children state verify).2 =
        Option.none
    · rw [if_pos hr] at h ⊢
      cases hfv : f (FunctionUtils.evaluate_children children state verify).1 with
      | ok v =>
        rw [hfv] at h
        exact absurd rfl h
      | error msg => rfl
    · rw [if_neg hr]
  · intro σ f verify children state hf h
    exact main σ (FunctionUtils.apply_sequence_with_error_fn f) verify children
      state (apply_sequence_with_error_fn_exclusive f hf) h

/-- C1 witness: the amended exclusivity theorem applied at concrete
evaluators: a throwing function under `apply`, an exclusive pair-returning
function under `apply_with_error`, and an exclusive binary function folded
by `apply_sequence_with_error` over two children. -/
theorem claim1_exclusive_witness :
    (FunctionUtils.apply (σ := Unit) (fun _ => .error "boom") Option.none
      [] ()).1 = PyVal.none ∧
    (FunctionUtils.apply_with_error (σ := Unit)
      (fun _ => .ok (PyVal.none, some "err")) Option.none [] ()).1 = PyVal.none ∧
    (FunctionUtils.apply_sequence_with_error (σ := Unit)
      (fun _ => .ok (PyVal.none, some "err")) Option.none
      [{ tryEval := fun _ => (PyVal.int 1, Option.none), to_string := "one" },
       { tryEval := fun _ => (PyVal.int 2, Option.none), to_string := "two" }]
      ()).1 = PyVal.none := by
  refine ⟨?_, ?_, ?_⟩
  · exact claim1_exclusive.1 Unit (fun _ => .error "boom") Option.none [] ()
      (fun h => Option.noConfusion h)
  · exact claim1_exclusive.2.1 Unit (fun _ => .ok (PyVal.none, some "err"))
      Option.none [] ()
      (fun args v e h he => by injection h with h1; injection h1 with h2 h3; exact h2.symm)
      (fun h => Option.noConfusion h)
  · exact claim1_exclusive.2.2 Unit (fun _ => .ok (PyVal.none, some "err"))
      Option.none _ ()
      (fun args v e h ht => by injection h with h1; injection h1 with h2 h3; exact h2.symm)
      (fun h => Option.noConfusion h)

/-- C3 witness: the equality theorem applied at concrete inputs: null
against a non-null value, and two concrete rationals within tolerance. -/
theorem claim3_is_equal_witness :
    FunctionUtils.is_equal [PyVal.none, PyVal.int 3] = .ok false ∧
    FunctionUtils.is_equal
      [PyVal.float (1 / 3 + 1 / 300000000), PyVal.float (1 / 3)] = .ok true := by
  constructor
  · exact (claim3_is_equal.2.1 (PyVal.int 3) rfl).1
  · refine (claim3_is_equal.2.2.2.2 (PyVal.float (1 / 3 + 1 / 300000000))
      (PyVal.float (1 / 3)) (1 / 3 + 1 / 300000000) (1 / 3) rfl rfl).mpr ?_
    rw [abs_of_nonneg (by norm_num)]
    norm_num

/-! ## C2 -/

/-- Popping right after pushing restores the stack. -/
theorem dropLast_push (st : FunctionUtils.Stack) (f : FunctionUtils.Frame) :
    List.dropLast (List.append st [f]) = st := by
  simp

/-- When no per-element error occurs, the collected values are exactly the
per-element result values. -/
theorem values_before_error_of_no_error :
    ∀ rs : List (PyVal × Option String), first_error rs = Option.none →
      values_before_error rs = rs.map Prod.fst := by
  intro rs
  induction rs with
  | nil => intro _; rfl
  | cons r rest ih =>
    intro h
    simp only [first_error] at h
    cases hr : r.2 with
    | some e => rw [hr] at h; exact Option.noConfusion h
    | none =>
      rw [hr] at h
      simp only [values_before_error, hr, List.map_cons]
      rw [ih h]

/-- The foreach loop propagates the first per-element error, collects the
values produced before it, and always restores the stack it was given:
each iteration pushes one frame, evaluates the body under the extended
stack, and pops that frame again before inspecting the result. -/
theorem foreach_loop_spec (body : FunctionUtils.Stack → PyVal × Option String) (n : String) :
    ∀ (arr : List PyVal) (st : FunctionUtils.Stack) (acc : List PyVal),
      FunctionUtils.foreach_loop body n st arr acc =
        (first_error (arr.map fun item => body (List.append st [[(n, item)]])),
         acc ++ values_before_error
           (arr.map fun item => body (List.append st [[(n, item)]])),
         st) := by
  intro arr
  induction arr with
  | nil =>
    intro st acc
    simp [FunctionUtils.foreach_loop, first_error, values_before_error]
  | cons item rest ih =>
    intro st acc
    rw [FunctionUtils.foreach_loop]
    simp only [dropLast_push, List.map_cons]
    cases hr : (body (List.append st [[(n, item)]])).2 with
    | some e =>
      simp only [first_error, values_before_error, hr, List.append_nil]
    | none =>
      simp only [List.append_eq] at hr ih ⊢
      simp only [first_error, values_before_error, hr]
      rw [ih st (acc ++ [(body (st ++ [[(n, item)]])).1])]
      simp [List.append_assoc]

/-- C2: for every foreach evaluation whose first child evaluates without
error to an iterable (list or dict), the result is ok (no exception), the
final stack is the caller's stack unchanged (every pushed frame was
popped), the first per-element error aborts the iteration and is
propagated with a null value, and on success the collected values are
exactly the per-element results. -/
theorem claim2_foreach :
    ∀ (child0 : FunctionUtils.Stack → PyVal × Option String) (child0_str : String)
      (iter_value : PyVal) (body : FunctionUtils.Stack → PyVal × Option String)
      (state : FunctionUtils.Stack) (inst : PyVal) (arr : List PyVal),
      child0 state = (inst, Option.none) →
      FunctionUtils.iter_to_array inst = some arr →
      (FunctionUtils.foreach child0 child0_str iter_value body state =
        .ok (match first_error (arr.map fun item =>
              body (state ++ [[(pyStr iter_value, item)]])) with
          | some e => (PyVal.none, some e, state)
          | Option.none =>
            (.list (values_before_error (arr.map fun item =>
              body (state ++ [[(pyStr iter_value, item)]]))),
             Option.none, state)) ∧
       (first_error (arr.map fun item =>
          body (state ++ [[(pyStr iter_value, item)]])) = Option.none →
        values_before_error (arr.map fun item =>
          body (state ++ [[(pyStr iter_value, item)]])) =
        (arr.map fun item =>
          body (state ++ [[(pyStr iter_value, item)]])).map Prod.fst)) := by
  intro child0 child0_str iter_value body state inst arr h0 h1
  have hnn : isNone inst = false := by
    cases inst <;> simp_all [FunctionUtils.iter_to_array, isNone]
  refine ⟨?_, values_before_error_of_no_error _⟩
  unfold FunctionUtils.foreach
  rw [h0]
  simp only [hnn, Bool.false_eq_true, if_false, if_pos rfl, if_true]
  rw [h1]
  dsimp only
  have hloop := foreach_loop_spec body (pyStr iter_value) arr state []
  simp only [List.append_eq] at hloop
  rw [hloop]
  cases hfe : first_error (arr.map fun item =>
      body (state ++ [[(pyStr iter_value, item)]])) with
  | some e => rfl
  | none => simp

/-- C2 witness: the foreach theorem applied to a two-element list with a
body that reports the stack depth: both iterations see the one pushed
frame, the result collects both values, and the final stack equals the
caller's stack. -/
theorem claim2_foreach_witness :
    FunctionUtils.foreach
      (fun _ => (PyVal.list [PyVal.int 1, PyVal.int 2], Option.none)) "items"
      (PyVal.str "x")
      (fun st => (PyVal.int (Int.ofNat st.length), Option.none))
      [[("a", PyVal.int 0)]] =
      .ok (PyVal.list [PyVal.int 2, PyVal.int 2], Option.none,
        [[("a", PyVal.int 0)]]) := by
  have h := claim2_foreach
    (fun _ => (PyVal.list [PyVal.int 1, PyVal.int 2], Option.none)) "items"
    (PyVal.str "x") (fun st => (PyVal.int (Int.ofNat st.length), Option.none))
    [[("a", PyVal.int 0)]] (PyVal.list [PyVal.int 1, PyVal.int 2])
    [PyVal.int 1, PyVal.int 2] rfl rfl
  have h2 := h.1
  simp only [List.map_cons, List.map_nil, first_error, values_before_error] at h2
  simpa using h2

/-! ## C7 -/

/-- C7 counterexample: an element node whose subscript evaluates without
error to a value that is neither an integer nor a string does not make
`try_accumulate_path` return the residual left-subtree with the collected
suffix; instead the source sets `left = None` and then reads
`left.children[1]`, raising `AttributeError`. -/
theorem claim7_counterexample :
    FunctionUtils.try_accumulate_path
      (.mk FunctionUtils.ELEMENT
        [.mk "constant" [] (PyVal.str "a") (PyVal.none, Option.none) "a",
         .mk "constant" [] PyVal.none (PyVal.none, Option.none) "idx"]
        PyVal.none (PyVal.none, Option.none) "a[idx]") =
      .error "AttributeError: \x27NoneType\x27 object has no attribute \x27children\x27" := by
  simp [FunctionUtils.try_accumulate_path, FunctionUtils.accumulate_loop,
    FunctionUtils.accumulate_node, FunctionUtils.accumulate_element,
    FunctionUtils.classify_subscript, FunctionUtils.ELEMENT, FunctionUtils.ACCESSOR,
    FunctionUtils.Expr.evalResult, pyNum?, FunctionUtils.is_integer]

/-- C7 amended: the walker stops and returns the residual left-subtree with
the suffix collected so far when it reaches a node that is neither an
accessor nor an element; an element node whose subscript evaluates without
error to a value that is neither an integer-valued number nor a string
instead aborts with an `AttributeError` exception, the source having set
`left = None` before reading `left.children[1]` to build its error
message. -/
theorem claim7_residual :
    (∀ (ty : String) (cs : List FunctionUtils.Expr) (v : PyVal)
        (ev : PyVal × Option String) (ts : String),
      ty ≠ FunctionUtils.ACCESSOR → ty ≠ FunctionUtils.ELEMENT →
      FunctionUtils.try_accumulate_path (.mk ty cs v ev ts) =
        .ok (Option.none, some (.mk ty cs v ev ts), Option.none)) ∧
    (∀ (c0 c1 : FunctionUtils.Expr) (rest : List FunctionUtils.Expr) (v : PyVal)
        (ev : PyVal × Option String) (ts : String) (sub : PyVal),
      c1.evalResult = (sub, Option.none) →
      ((pyNum? sub).isSome && FunctionUtils.is_integer sub) = false →
      (∀ s, sub ≠ PyVal.str s) →
      FunctionUtils.try_accumulate_path
        (.mk FunctionUtils.ELEMENT (c0 :: c1 :: rest) v ev ts) =
        .error "AttributeError: \x27NoneType\x27 object has no attribute \x27children\x27") := by
  constructor
  · intro ty cs v ev ts h1 h2
    have hb1 : (ty == FunctionUtils.ACCESSOR) = false := beq_eq_false_iff_ne.mpr h1
    have hb2 : (ty == FunctionUtils.ELEMENT) = false := beq_eq_false_iff_ne.mpr h2
    unfold FunctionUtils.try_accumulate_path
    simp only [FunctionUtils.accumulate_loop, FunctionUtils.accumulate_node,
      hb1, hb2, Bool.false_eq_true, if_false]
    rfl
  · intro c0 c1 rest v ev ts sub hev hni hns
    have hcls : FunctionUtils.classify_subscript sub = FunctionUtils.SubKind.bad := by
      unfold FunctionUtils.classify_subscript
      rw [hni]
      simp only [Bool.false_eq_true, if_false]
    unfold FunctionUtils.try_accumulate_path
    simp [FunctionUtils.accumulate_loop, FunctionUtils.accumulate_node,
      FunctionUtils.accumulate_element, hev, hcls, FunctionUtils.ELEMENT,
      FunctionUtils.ACCESSOR]

/-- C7 witness: the amended theorem applied at concrete nodes: a constant
node is returned as residual, and an element node whose subscript
evaluates to `None` aborts with the `AttributeError`. -/
theorem claim7_residual_witness :
    FunctionUtils.try_accumulate_path
      (.mk "constant" [] (PyVal.int 5) (PyVal.int 5, Option.none) "5") =
      .ok (Option.none,
        some (.mk "constant" [] (PyVal.int 5) (PyVal.int 5, Option.none) "5"),
        Option.none) ∧
    FunctionUtils.try_accumulate_path
      (.mk FunctionUtils.ELEMENT
        [.mk "constant" [] (PyVal.str "a") (PyVal.none, Option.none) "a",
         .mk "constant" [] PyVal.none (PyVal.none, Option.none) "idx"]
        PyVal.none (PyVal.none, Option.none) "a[idx]") =
      .error "AttributeError: \x27NoneType\x27 object has no attribute \x27children\x27" := by
  constructor
  · exact claim7_residual.1 "constant" [] (PyVal.int 5) (PyVal.int 5, Option.none)
      "5" (by decide) (by decide)
  · exact claim7_residual.2
      (.mk "constant" [] (PyVal.str "a") (PyVal.none, Option.none) "a")
      (.mk "constant" [] PyVal.none (PyVal.none, Option.none) "idx") [] PyVal.none
      (PyVal.none, Option.none) "a[idx]" PyVal.none rfl rfl
      (fun s h => PyVal.noConfusion h)
